import Mathlib

/-!
Verification of the todo-api sync record store.

Shallow embedding of the Mongoose `Todo` model (`src/models/Todo.js`) and the
controller operations (`controllers/todoController.js`): `getTodos`,
`syncTodos`, `createTodo`, `updateTodo`, `deleteTodo`.

Modelling conventions:
* Timestamps are `Nat` (milliseconds since epoch); `deletedAt` is
  `Option Nat` (`none` = the schema default `null`).
* The document store is a `List Todo`; MongoDB's `find`/`findById` become
  `List.filter`/`List.find?` over it, `.sort(...)` becomes `List.mergeSort`.
* A request body is a record of `Option`-valued fields.  The schema declares
  only `_id`, `title`, `completed`, `deletedAt`, `version` (plus the
  `timestamps: true` pair), so Mongoose strict mode silently discards the
  keys `syncId`, `description`, `isCompleted`, `isDeleted` that the routing
  layer's Swagger documentation advertises; those fields are carried in the
  body type and ignored by the operations, which is exactly the stripping.
* `TodoSchema.pre('save')` bumps `version` when the document is modified.
  `Document.save` runs it; a document freshly built by `Todo.create` has the
  constructor-supplied paths marked modified, so the hook also fires on
  creation.  `findByIdAndUpdate` is a query-level update and does NOT run
  save middleware, so no bump happens there.  Mongoose `doc.set` marks a
  path modified only when the new value differs from the current one.
* `title` has the `trim` setter and the `required` validator (an empty or
  missing string fails); `updateTodo` passes `runValidators: true`, so a
  `$set` of an empty title fails on update as well.
* Client-facing identifier: the schema's `_id` is a client-suppliable
  string with a server-side UUID default ("UUIDs are better for
  client-generated IDs in offline apps"), and it is what every controller
  looks records up by; it plays the spec's `clientKey` role.
* Route wiring: the PATCH and DELETE routes are declared as `/:syncId`, so
  Express stores the URL segment in `req.params.syncId`, but both
  controllers read `req.params.id`, which is `undefined`; Mongoose executes
  `findById(undefined)` as `findOne({ _id: null })`, which matches nothing.
  `RouteParams` keeps the two parameter names apart so this mismatch is
  part of the model rather than silently repaired.
* Error mapping from the controllers: `createTodo` and `updateTodo` answer
  every thrown error (validation failure, duplicate-key `E11000`, immutable
  `_id` modification) with status 400; `getTodos`/`syncTodos`/`deleteTodo`
  answer 500 on store failure (store failures are not modelled — the store
  collaborator is total here).
-/

namespace TodoApi

/-- A persisted todo document, as declared by `TodoSchema` plus the
`timestamps: true` pair. -/
structure Todo where
  _id : String
  title : String
  completed : Bool
  deletedAt : Option Nat
  version : Int
  createdAt : Nat
  updatedAt : Nat
deriving Repr, DecidableEq

/-- The document store: all persisted todos. -/
abbrev Store := List Todo

/-- A JSON request body for create/update.  Fields absent from the JSON are
`none`.  The last four fields are accepted by the HTTP surface but are not in
`TodoSchema`, so strict mode drops them before they reach a document. -/
structure ReqBody where
  _id : Option String
  title : Option String
  completed : Option Bool
  deletedAt : Option (Option Nat)
  version : Option Int
  syncId : Option String
  description : Option String
  isCompleted : Option Bool
  isDeleted : Option Bool
deriving Repr

/-- The body `{}`: no fields supplied. -/
def emptyBody : ReqBody :=
  ⟨none, none, none, none, none, none, none, none, none⟩

/-- Result of one controller call: HTTP status, the document in the JSON
answer (when one is returned), and the store afterwards. -/
structure OpResult where
  status : Nat
  doc : Option Todo
  store : Store
deriving Repr

/-- The tombstone reading of `deletedAt` ("For soft deletes (tombstoning)"):
a record is logically deleted when `deletedAt` is set. -/
def isDeleted (t : Todo) : Bool := t.deletedAt.isSome

/-- The `trim: true` setter on `title` (JS `String.prototype.trim`): strip
leading and trailing whitespace. -/
def trim (s : String) : String :=
  ⟨(((s.data.dropWhile Char.isWhitespace).reverse).dropWhile
      Char.isWhitespace).reverse⟩

/-- `GET /api/todos`:
`Todo.find({ deletedAt: null }).sort({ createdAt: -1 })`. -/
def getTodos (s : Store) : List Todo :=
  (s.filter (fun d => d.deletedAt = none)).mergeSort
    (fun a b => b.createdAt ≤ a.createdAt)

/-- Outcome of reading the `since` query parameter in `syncTodos`:
the parameter is missing (or the empty string, which is falsy in
`if (since)`), or `new Date(since)` is `NaN`, or it parses to a time. -/
inductive SinceParam where
  | absent
  | unparsable
  | parsed (t : Nat)
deriving Repr, DecidableEq

/-- `GET /api/todos/sync`: with a parsed `since` the query is
`{ updatedAt: { $gt: sinceDate } }`, otherwise `{}`; the matches are
returned sorted by `{ updatedAt: 1 }` together with the server time. -/
def syncTodos (since : SinceParam) (now : Nat) (s : Store) :
    Nat × List Todo :=
  let matched : List Todo :=
    match since with
    | .parsed t => s.filter (fun d => t < d.updatedAt)
    | _ => s
  (now, matched.mergeSort (fun a b => a.updatedAt ≤ b.updatedAt))

/-- `POST /api/todos`: `Todo.create(req.body)`.
`freshId` is the `uuidv4()` the `_id` default produces when the body has no
`_id`; `now` is the timestamp pair `timestamps: true` writes.  Validation
(trimmed `title` must be non-empty) throws first, then a duplicate `_id`
throws `E11000`; the controller answers any throw with 400.  On the
successful save the document is modified (its constructor set `title`), so
the `pre('save')` hook adds 1 to `version`. -/
def createTodo (b : ReqBody) (freshId : String) (now : Nat) (s : Store) :
    OpResult :=
  let titleVal := trim (b.title.getD "")
  if titleVal = "" then
    ⟨400, none, s⟩
  else
    let id := b._id.getD freshId
    if s.any (fun d => d._id = id) then
      ⟨400, none, s⟩
    else
      let doc : Todo :=
        { _id := id
          title := titleVal
          completed := b.completed.getD false
          deletedAt := b.deletedAt.getD none
          version := b.version.getD 1 + 1
          createdAt := now
          updatedAt := now }
      ⟨201, some doc, doc :: s⟩

/-- `req.params` as the update/delete controllers receive it.  The router
declares the path parameter as `:syncId` (`router.patch('/:syncId', ...)`,
`router.delete('/:syncId', ...)`), so Express binds the URL segment under
the key `syncId`; no route ever binds a parameter named `id`. -/
structure RouteParams where
  syncId : Option String
  id : Option String
deriving Repr, DecidableEq

/-- What route dispatch for `PATCH|DELETE /api/todos/:syncId` produces for
the URL key `k`: `params.syncId = k` and `params.id = undefined`. -/
def routeParams (k : String) : RouteParams := ⟨some k, none⟩

/-- `PATCH /api/todos/:syncId` (controller `updateTodo`): the controller
reads `req.params.id` — NOT `req.params.syncId` — so over the actual route
the lookup id is `undefined`, and Mongoose turns `findById(undefined)` into
`findOne({ _id: null })`, which matches no persisted record (every document
carries a string `_id`, client-supplied or defaulted); the result is 404
for every request arriving through the route.  The rest embeds the
controller past the lookup: 404 when nothing is found, else
`findByIdAndUpdate(id, req.body, { new: true, runValidators: true })`.
Strict mode keeps only schema paths of the body; `runValidators` rejects an
empty trimmed `title`; MongoDB rejects a `$set` that would alter the
immutable `_id`; both rejections reach the catch branch, status 400, with
the store untouched.  On success `timestamps` sets `updatedAt`; no save
middleware runs, so `version` is only changed if the body itself carries a
`version` value. -/
def updateTodo (params : RouteParams) (b : ReqBody) (now : Nat) (s : Store) :
    OpResult :=
  match params.id with
  | none => ⟨404, none, s⟩
  | some i =>
    match s.find? (fun d => d._id = i) with
    | none => ⟨404, none, s⟩
    | some t =>
      if b.title.any (fun ti => trim ti = "") then
        ⟨400, none, s⟩
      else if b._id.any (fun x => x != t._id) then
        ⟨400, none, s⟩
      else
        let t' : Todo :=
          { t with
            title := (b.title.map trim).getD t.title
            completed := b.completed.getD t.completed
            deletedAt := b.deletedAt.getD t.deletedAt
            version := b.version.getD t.version
            updatedAt := now }
        ⟨200, some t', s.map (fun d => if d._id = i then t' else d)⟩

/-- `DELETE /api/todos/:syncId` (controller `deleteTodo`): the controller
reads `req.params.id`, which the `/:syncId` route never binds, so the
lookup is `findById(undefined)` = `findOne({ _id: null })` = no match, and
every request through the route answers 404.  Past the lookup the
controller does `todo.deletedAt = new Date(); await todo.save()`: the
assignment marks `deletedAt` modified exactly when the value changes; a
modified save runs the `pre('save')` hook (`version += 1`) and refreshes
`updatedAt`, an unmodified save writes nothing. -/
def deleteTodo (params : RouteParams) (now : Nat) (s : Store) : OpResult :=
  match params.id with
  | none => ⟨404, none, s⟩
  | some i =>
    match s.find? (fun d => d._id = i) with
    | none => ⟨404, none, s⟩
    | some t =>
      let t' : Todo :=
        if t.deletedAt = some now then
          { t with deletedAt := some now }
        else
          { t with deletedAt := some now, version := t.version + 1,
                   updatedAt := now }
      ⟨200, some t', s.map (fun d => if d._id = i then t' else d)⟩

/-- A sample persisted record: client key "a", title "x", active, and
`version = 2` — the version every fresh `createTodo` actually leaves. -/
def sample : Todo := ⟨"a", "x", false, none, 2, 0, 0⟩

/-! Helper lemmas -/

/-- Lists sorted with `mergeSort` on `updatedAt` are pairwise ascending. -/
theorem pairwise_mergeSort_updatedAt (l : List Todo) :
    List.Pairwise (fun a b : Todo => a.updatedAt ≤ b.updatedAt)
      (l.mergeSort (fun a b => a.updatedAt ≤ b.updatedAt)) := by
  have h : (l.mergeSort (fun a b => decide (a.updatedAt ≤ b.updatedAt))).Pairwise
      (fun a b : Todo => decide (a.updatedAt ≤ b.updatedAt)) :=
    List.sorted_mergeSort
      (fun a b c hab hbc => by simp only [decide_eq_true_eq] at *; omega)
      (fun a b => by simp only [Bool.or_eq_true, decide_eq_true_eq]; omega) l
  exact h.imp fun hx => of_decide_eq_true hx

/-- Lists sorted with `mergeSort` on reversed `createdAt` are pairwise
descending. -/
theorem pairwise_mergeSort_createdAt_desc (l : List Todo) :
    List.Pairwise (fun a b : Todo => b.createdAt ≤ a.createdAt)
      (l.mergeSort (fun a b => b.createdAt ≤ a.createdAt)) := by
  have h : (l.mergeSort (fun a b => decide (b.createdAt ≤ a.createdAt))).Pairwise
      (fun a b : Todo => decide (b.createdAt ≤ a.createdAt)) :=
    List.sorted_mergeSort
      (fun a b c hab hbc => by simp only [decide_eq_true_eq] at *; omega)
      (fun a b => by simp only [Bool.or_eq_true, decide_eq_true_eq]; omega) l
  exact h.imp fun hx => of_decide_eq_true hx

/-! Claims -/

/-- Claim C1 states that every successful mutation (update or soft-delete)
increments `version` by exactly 1, so after N successful mutations on a
record created with version 1 the final version is `1 + N`.  The code
refutes it twice over: a fresh create already answers `version = 2` (the
`pre('save')` hook fires on the initial save because a new document counts
as modified), so even the empty mutation sequence lands on 2 where the
claim demands 1; and no mutation of an existing record ever succeeds —
both PATCH and DELETE on the record's own key answer 404, because the
controllers read `req.params.id`, which the `/:syncId` routes never bind —
so the record's version can never move past its creation value at all. -/
theorem c1_no_mutation_reaches_version_one_plus_n :
    let r1 : OpResult := createTodo
      { emptyBody with _id := some "a", title := some "x" }
      "fresh" 0 ([] : Store)
    let r2 : OpResult := updateTodo (routeParams "a")
      { emptyBody with completed := some true } 5 r1.store
    let r3 : OpResult := deleteTodo (routeParams "a") 6 r1.store
    r1.status = 201
    ∧ r1.doc.map Todo.version = some 2
    ∧ r1.doc.map Todo.version ≠ some 1
    ∧ r2.status = 404 ∧ r2.store = r1.store
    ∧ r3.status = 404 ∧ r3.store = r1.store := by decide

/-- Claim C2 states that a valid create returns a record with `version = 1`,
`createdAt = updatedAt` and the tombstone unset.  The code refutes the
version part: the `pre('save')` hook increments the schema default 1 during
the creating save itself, so the returned record carries `version = 2`.
The other two parts do hold at this input. -/
theorem c2_create_returns_version_two :
    let r : OpResult := createTodo
      { emptyBody with _id := some "k1", title := some "Buy groceries" }
      "fresh" 7 ([] : Store)
    r.status = 201
    ∧ r.doc.map Todo.version = some 2
    ∧ r.doc.map Todo.version ≠ some 1
    ∧ r.doc.map Todo.createdAt = some 7
    ∧ r.doc.map Todo.updatedAt = some 7
    ∧ r.doc.map isDeleted = some false := by decide

/-- Claim C3: for every store and parsed `since` value, the sync endpoint
returns exactly the records (deleted or not) whose `updatedAt` is strictly
greater than `since`, sorted ascending by `updatedAt`; when `since` is
absent or unparsable it returns all records, again sorted ascending.
Confirmed. -/
theorem c3_sync_returns_changes_since (s : Store) (t now : Nat) :
    (((syncTodos (SinceParam.parsed t) now s).2).Perm
        (s.filter (fun d => t < d.updatedAt))
      ∧ (∀ d, d ∈ (syncTodos (SinceParam.parsed t) now s).2
          ↔ d ∈ s ∧ t < d.updatedAt)
      ∧ List.Pairwise (fun a b : Todo => a.updatedAt ≤ b.updatedAt)
          ((syncTodos (SinceParam.parsed t) now s).2))
    ∧ (((syncTodos SinceParam.absent now s).2).Perm s
      ∧ List.Pairwise (fun a b : Todo => a.updatedAt ≤ b.updatedAt)
          ((syncTodos SinceParam.absent now s).2))
    ∧ (((syncTodos SinceParam.unparsable now s).2).Perm s
      ∧ List.Pairwise (fun a b : Todo => a.updatedAt ≤ b.updatedAt)
          ((syncTodos SinceParam.unparsable now s).2)) := by
  refine ⟨⟨List.mergeSort_perm _ _, ?_, pairwise_mergeSort_updatedAt _⟩,
    ⟨List.mergeSort_perm _ _, pairwise_mergeSort_updatedAt _⟩,
    ⟨List.mergeSort_perm _ _, pairwise_mergeSort_updatedAt _⟩⟩
  intro d
  simp only [syncTodos]
  rw [(List.mergeSort_perm _ _).mem_iff, List.mem_filter]
  simp

/-- Claim C4 states that a create re-using the client key of any existing
record answers ConflictError/409.  The code refutes the status: the
duplicate-key throw from the store lands in `createTodo`'s catch branch,
which answers 400, never 409 (and no record is added). -/
theorem c4_duplicate_create_answers_400_not_409 :
    let b : ReqBody := { emptyBody with _id := some "dup", title := some "x" }
    let r1 : OpResult := createTodo b "f1" 0 ([] : Store)
    let r2 : OpResult := createTodo b "f2" 1 r1.store
    r1.status = 201 ∧ r2.status = 400 ∧ r2.status ≠ 409
    ∧ r2.store = r1.store := by decide

/-- Claim C5 describes what a successful update changes.  The code refutes
its premise that updates on existing records succeed at all: the update
controller reads `req.params.id`, which the `/:syncId` route never binds,
so `PATCH /todos/a` answers 404 with the store byte-for-byte unchanged —
the documented partial-update behavior (here attempted with a body carrying
`version: 100` against a version-2 record) is unreachable, and no record
ever observes a successful update's field changes or `version`/`updatedAt`
bumps. -/
theorem c5_every_update_answers_404 :
    let r : OpResult := updateTodo (routeParams "a")
      { emptyBody with version := some 100 } 9 [sample]
    let rCompleted : OpResult := updateTodo (routeParams "a")
      { emptyBody with isCompleted := some true } 10 [sample]
    r.status = 404 ∧ r.doc = none ∧ r.store = [sample]
    ∧ rCompleted.status = 404 ∧ rCompleted.store = [sample] := by decide

/-- Claim C6: for every store, the active listing returns exactly the
records whose tombstone is unset, sorted descending by `createdAt`, and a
deleted record never appears in it.  Confirmed. -/
theorem c6_list_active_exact_and_sorted (s : Store) :
    (getTodos s).Perm (s.filter (fun d => d.deletedAt = none))
    ∧ (∀ d, d ∈ getTodos s ↔ d ∈ s ∧ d.deletedAt = none)
    ∧ List.Pairwise (fun a b : Todo => b.createdAt ≤ a.createdAt) (getTodos s)
    ∧ ∀ d ∈ getTodos s, isDeleted d = false := by
  have hmem : ∀ d, d ∈ getTodos s ↔ d ∈ s ∧ d.deletedAt = none := by
    intro d
    simp only [getTodos]
    rw [(List.mergeSort_perm _ _).mem_iff, List.mem_filter]
    simp
  refine ⟨List.mergeSort_perm _ _, hmem, pairwise_mergeSort_createdAt_desc _,
    ?_⟩
  intro d hd
  simp [isDeleted, ((hmem d).1 hd).2]

/-- Claim C7 states that soft-deleting an existing record twice in
succession never 404s on the second call, and that both calls succeed,
each setting the tombstone and bumping `version`/`updatedAt`.  The code
refutes it at the first call already: the delete controller reads
`req.params.id`, which the `/:syncId` route never binds, so
`DELETE /todos/a` answers 404 "Todo not found" both times even though the
record with key "a" exists; neither call tombstones anything or bumps
anything. -/
theorem c7_soft_delete_answers_404_both_times :
    let r1 : OpResult := deleteTodo (routeParams "a") 1 [sample]
    let r2 : OpResult := deleteTodo (routeParams "a") 2 r1.store
    r1.status = 404 ∧ r2.status = 404
    ∧ r1.doc = none ∧ r2.doc = none
    ∧ r1.store = [sample] ∧ r2.store = [sample]
    ∧ (r2.store.map isDeleted) = [false] := by decide

/-- Claim C8 states that a PATCH whose body tries to change the record's
client key fails with ValidationError/400 and leaves the record unchanged.
The code refutes the status: the request dies at the lookup — the update
controller reads `req.params.id`, unbound under the `/:syncId` route, so
`findById(undefined)` finds nothing and `PATCH /todos/a {_id:"b"}` answers
404, never reaching `findByIdAndUpdate`'s immutable-`_id` rejection that
would have produced the documented 400.  The record is indeed left
unchanged, but by the wrong path. -/
theorem c8_key_change_patch_answers_404 :
    let r : OpResult := updateTodo (routeParams "a")
      { emptyBody with _id := some "b" } 9 [sample]
    r.status = 404 ∧ r.status ≠ 400 ∧ r.doc = none
    ∧ r.store = [sample] := by decide

/-- Claim C9 states that a create missing a client key (or with an empty
one) fails with 400 and persists nothing, and likewise for a missing/empty
title.  The code refutes the client-key half: the schema has no required
client-key validator — `_id` simply has a UUID default — so a body with no
key (or an empty-string key) is created with status 201; only the title
half behaves as claimed. -/
theorem c9_create_without_client_key_succeeds :
    let rNoKey : OpResult := createTodo { emptyBody with title := some "x" }
      "server-uuid" 0 ([] : Store)
    let rEmptyKey : OpResult := createTodo
      { emptyBody with _id := some "", title := some "x" }
      "server-uuid2" 1 ([] : Store)
    let rNoTitle : OpResult := createTodo { emptyBody with _id := some "z" } "f" 2
      ([] : Store)
    rNoKey.status = 201 ∧ rNoKey.doc.map Todo._id = some "server-uuid"
    ∧ rNoKey.store.length = 1
    ∧ rEmptyKey.status = 201 ∧ rEmptyKey.doc.map Todo._id = some ""
    ∧ rNoTitle.status = 400 ∧ rNoTitle.store = ([] : Store) := by decide

/-- Claim C10: `createTodo` whitelists nothing — client-supplied values for
the version counter, the completion flag and the tombstone field are
persisted as given (the version still gets the save-time +1), instead of
the documented defaults 1/false/null.  Confirmed for every body carrying
them, every fresh id, time and store without the chosen key. -/
theorem c10_create_persists_client_values (k ti fresh : String) (v : Int)
    (c : Bool) (d : Option Nat) (now : Nat) (s : Store)
    (hti : trim ti ≠ "")
    (hk : s.any (fun x => x._id = k) = false) :
    createTodo { emptyBody with _id := some k, title := some ti,
                                 completed := some c, deletedAt := some d,
                                 version := some v } fresh now s
    = ⟨201, some ⟨k, trim ti, c, d, v + 1, now, now⟩,
        ⟨k, trim ti, c, d, v + 1, now, now⟩ :: s⟩ := by
  simp [createTodo, emptyBody, hti, hk]

/-- Witness for C10: create with version 41, completed true and a set
tombstone; all three survive, version becoming 42. -/
theorem c10_create_persists_client_values_witness :
    trim "x" ≠ ""
    ∧ (([] : Store).any (fun x => x._id = "a") = false)
    ∧ createTodo { emptyBody with _id := some "a", title := some "x",
                                   completed := some true,
                                   deletedAt := some (some 5),
                                   version := some 41 } "f" 3 ([] : Store)
      = ⟨201, some ⟨"a", trim "x", true, some 5, 41 + 1, 3, 3⟩,
          ⟨"a", trim "x", true, some 5, 41 + 1, 3, 3⟩ :: ([] : Store)⟩ :=
  ⟨by decide, by decide,
    c10_create_persists_client_values "a" "x" "f" 41 true (some 5) 3 []
      (by decide) (by decide)⟩

end TodoApi
